import Mathlib

/-!
Verification development for a polkit authentication agent (src/main.rs).

The agent exposes two D-Bus callbacks, `begin_authentication` and
`cancel_authentication`, keeps at most one `AuthenticationAttempt` in a
shared slot, and drives a spawned `polkit-agent-helper-1` subprocess
through a line protocol.  This file gives a shallow embedding of that
code: pure functions mirror the Rust functions, the asynchronous
conversation loop is driven by an explicit script of ready events, and
platform effects (uids, user lookup, write and wait outcomes) are
explicit parameters.
-/

namespace PkAgent

/-- Error taxonomy of the agent's callback interface
(`PolkitError` in main.rs, lines 57-65). -/
inductive PolkitError where
  | Failed
  | Cancelled
  | NotSupported
  | NotAuthorized
  | CancellationIdNotUnique
deriving DecidableEq, Repr

/-- A representative subset of the D-Bus variant value space
(`zvariant::Value`): the code only ever matches on the `U32` variant, so
the other constructors stand for every non-`U32` encoding a detail map
can carry. -/
inductive Value where
  | U32 (v : Nat)
  | U64 (v : Nat)
  | I32 (v : Int)
  | Str (s : String)
deriving DecidableEq, Repr

/-- `Identity` from main.rs (lines 73-77): a kind string and a detail
map, modelled as an association list. -/
structure Identity where
  identity_kind : String
  identity_details : List (String × Value)
deriving DecidableEq, Repr

/-- Lookup in a detail map (`HashMap::get`), first matching key wins. -/
def lookupDetail (details : List (String × Value)) (key : String) : Option Value :=
  match details with
  | [] => none
  | (k, v) :: rest => if k = key then some v else lookupDetail rest key

/-- The platform environment consulted by `select_username_from_identities`:
the process's real uid (`uzers::get_current_uid`, i.e. `getuid`), its
effective uid (`geteuid`, present so the spec's variant of the selection
rule can be stated), and the account directory.  `user_by_uid uid` is
`none` when `uzers::get_user_by_uid` finds no user; `some none` when the
user exists but its name is not valid UTF-8 (`OsStr::to_str` fails);
`some (some name)` otherwise. -/
structure SysEnv where
  current_uid : Nat
  effective_uid : Nat
  user_by_uid : Nat → Option (Option String)

/-- The uid-collection loop of `select_username_from_identities`
(main.rs lines 429-437): keep, in order, the `U32` uid detail of every
identity whose kind is exactly "unix-user". -/
def collect_uids : List Identity → List Nat
  | [] => []
  | ident :: rest =>
    if ident.identity_kind = "unix-user" then
      match lookupDetail ident.identity_details "uid" with
      | some (Value.U32 uid) => uid :: collect_uids rest
      | _ => collect_uids rest
    else collect_uids rest

/-- `select_username_from_identities` (main.rs lines 428-448): collect
unix-user uids, then try the process's own (real) uid, then root, then
the first collected uid, and resolve the winner through the account
directory. -/
def select_username_from_identities (env : SysEnv) (identities : List Identity) :
    Option String :=
  let uids := collect_uids identities
  match ((uids.find? (fun uid => uid == env.current_uid)).orElse
      (fun _ => uids.find? (fun uid => uid == 0))).orElse
      (fun _ => uids.head?) with
  | none => none
  | some uid =>
    match env.user_by_uid uid with
    | none => none
    | some name => name

/-- The selection rule exactly as claim C3 words it, written from the
spec: the first preference goes to the process's EFFECTIVE uid.  Kept
for comparison with the source function, which consults the real uid. -/
def select_username_claimC3 (env : SysEnv) (identities : List Identity) :
    Option String :=
  let uids := collect_uids identities
  let chosen :=
    if env.effective_uid ∈ uids then some env.effective_uid
    else if 0 ∈ uids then some 0
    else uids.head?
  match chosen with
  | none => none
  | some uid =>
    match env.user_by_uid uid with
    | none => none
    | some name => name

/-- The spec's selection rule amended to use the process's real uid:
own uid if collected, else root if collected, else the first collected
uid, resolved through the account directory. -/
def select_username_rule (env : SysEnv) (identities : List Identity) :
    Option String :=
  let uids := collect_uids identities
  let chosen :=
    if env.current_uid ∈ uids then some env.current_uid
    else if 0 ∈ uids then some 0
    else uids.head?
  match chosen with
  | none => none
  | some uid =>
    match env.user_by_uid uid with
    | none => none
    | some name => name

lemma find?_beq_eq (c : Nat) (l : List Nat) :
    l.find? (fun x => x == c) = if c ∈ l then some c else none := by
  induction l with
  | nil => simp
  | cons hd tl ih =>
    simp only [List.find?]
    by_cases hx : hd = c
    · subst hx
      simp
    · have hb : (hd == c) = false := beq_eq_false_iff_ne.mpr hx
      rw [hb, ih]
      simp [List.mem_cons, Ne.symm hx]

lemma select_eq_rule (env : SysEnv) (ids : List Identity) :
    select_username_from_identities env ids = select_username_rule env ids := by
  unfold select_username_from_identities select_username_rule
  dsimp only
  rw [find?_beq_eq, find?_beq_eq]
  by_cases h1 : env.current_uid ∈ collect_uids ids <;>
    by_cases h2 : 0 ∈ collect_uids ids <;>
    simp [h1, h2, Option.orElse]

/-- Events sent from the agent runtime to the presentation layer
(`Event` in main.rs, lines 80-84).  `ReadPassword` carries the reply
channel and the attempt's cancellation token; both are modelled as
opaque numeric handles. -/
inductive Event where
  | ReadPassword (password_tx : Nat) (token : Nat)
  | ReadFingerprint
  | End
deriving DecidableEq, Repr

/-- Drop whitespace characters from the front of a character list.
`Char.isWhitespace` covers the ASCII whitespace the line protocol can
produce. -/
def dropWhileWs : List Char → List Char
  | [] => []
  | c :: rest => if c.isWhitespace then dropWhileWs rest else c :: rest

/-- Rust `str::trim`: whitespace removed from both ends of the string,
written structurally so concrete lines evaluate. -/
def rust_trim (s : String) : String :=
  String.mk ((dropWhileWs (dropWhileWs s.data).reverse).reverse)

/-- Rust `str::split_once(' ')` over the character list: `none` when the
string has no space, otherwise the parts before and after the first
space. -/
def splitOnceChar : List Char → Option (List Char × List Char)
  | [] => none
  | c :: rest =>
    if c = ' ' then some ([], rest)
    else
      match splitOnceChar rest with
      | none => none
      | some (a, b) => some (c :: a, b)

/-- `line.split_once(' ').unwrap_or((line, ""))` (main.rs line 242):
split at the first space; a line with no space becomes the whole-line
token with an empty message. -/
def split_once_space (s : String) : String × String :=
  match splitOnceChar s.data with
  | none => (s, "")
  | some (a, b) => (String.mk a, String.mk b)

/-- `PolkitAgent::handle_helper_line` (main.rs lines 224-272).  The
`line` argument is the `next_line` result: a read error, end of stream
(`none`), or one line.  Returns the `should_continue` outcome together
with the events emitted on the channel during the call.  The channel
send is modelled as infallible: the receiver lives for the whole
process, so the unbounded `flume` send only fails if the presentation
loop has died.  Whitespace trimming models `str::trim` over the ASCII
whitespace the protocol can produce. -/
def handle_helper_line (line : Except Unit (Option String))
    (token password_tx : Nat) : Except PolkitError Bool × List Event :=
  match line with
  | Except.error _ => (Except.error PolkitError.Failed, [])
  | Except.ok none => (Except.ok false, [])
  | Except.ok (some raw) =>
    let l := rust_trim raw
    let p := split_once_space l
    if p.1 = "PAM_PROMPT_ECHO_OFF" then
      (Except.ok true, [Event.ReadPassword password_tx token])
    else if p.1 = "PAM_PROMPT_ECHO_ON" then (Except.error PolkitError.Failed, [])
    else if p.1 = "PAM_ERROR_MSG" then (Except.ok true, [])
    else if p.1 = "PAM_TEXT_INFO" then (Except.ok true, [])
    else if p.1 = "SUCCESS" then (Except.ok false, [])
    else if p.1 = "FAILURE" then (Except.error PolkitError.Failed, [])
    else (Except.ok true, [])

/-- Claim C4's literal reading of the line handling, written from the
spec: split the raw line at the first space and dispatch, with no
whitespace normalisation. -/
def handle_helper_line_claim (line : Except Unit (Option String))
    (token password_tx : Nat) : Except PolkitError Bool × List Event :=
  match line with
  | Except.error _ => (Except.error PolkitError.Failed, [])
  | Except.ok none => (Except.ok false, [])
  | Except.ok (some raw) =>
    let p := split_once_space raw
    if p.1 = "PAM_PROMPT_ECHO_OFF" then
      (Except.ok true, [Event.ReadPassword password_tx token])
    else if p.1 = "PAM_PROMPT_ECHO_ON" then (Except.error PolkitError.Failed, [])
    else if p.1 = "PAM_ERROR_MSG" then (Except.ok true, [])
    else if p.1 = "PAM_TEXT_INFO" then (Except.ok true, [])
    else if p.1 = "SUCCESS" then (Except.ok false, [])
    else if p.1 = "FAILURE" then (Except.error PolkitError.Failed, [])
    else (Except.ok true, [])

/-- Applies the trimming that `handle_helper_line` performs on an actual
line, leaving errors and end of stream unchanged. -/
def trim_line : Except Unit (Option String) → Except Unit (Option String)
  | Except.ok (some s) => Except.ok (some (rust_trim s))
  | other => other

/-- `PolkitAgent::handle_password` (main.rs lines 214-222): write the
password and then a newline to the helper's stdin; either write failing
turns into `Failed` via `From<io::Error>`.  `w_pw` and `w_nl` are the
outcomes of the two writes; the returned list is the stdin transcript
extended by what was actually written. -/
def handle_password (pw : String) (w_pw w_nl : Bool) (stdin : List String) :
    Except PolkitError Bool × List String :=
  if w_pw then
    if w_nl then (Except.ok true, stdin ++ [pw, "\n"])
    else (Except.error PolkitError.Failed, stdin ++ [pw])
  else (Except.error PolkitError.Failed, stdin)

deriving instance DecidableEq for Except

/-- One ready arm of the three-way `select!` in the conversation loop
(main.rs lines 194-198): a read result from the helper's stdout, a
password arriving on the reply channel (with the outcomes of its two
stdin writes), or the cancellation token firing. -/
inductive LoopEvent where
  | helperLine (line : Except Unit (Option String))
  | password (pw : String) (w_pw : Bool) (w_nl : Bool)
  | cancelled
deriving DecidableEq, Repr

/-- How the conversation loop ended: `broke` for the `break` taken when
`should_continue` is false (a SUCCESS line or end of stream), `errored`
for an early `return` with an error (the `?` on the two handlers, or the
cancellation arm). -/
inductive LoopExit where
  | broke
  | errored (e : PolkitError)
deriving DecidableEq, Repr

/-- Observable state threaded through the conversation loop: the
transcript of chunks written to the helper's stdin and the events
emitted on the channel. -/
structure LoopState where
  stdin : List String
  events : List Event
deriving DecidableEq, Repr

/-- The conversation loop of `authenticate` (main.rs lines 192-203),
driven by the script of arms that become ready, in order.  Returns
`none` for the exit when the script is exhausted with the loop still
waiting (the call has not returned). -/
def runLoop (token password_tx : Nat) :
    List LoopEvent → LoopState → Option LoopExit × LoopState
  | [], st => (none, st)
  | LoopEvent.helperLine l :: rest, st =>
    let r := handle_helper_line l token password_tx
    let st' : LoopState := { st with events := st.events ++ r.2 }
    match r.1 with
    | Except.ok true => runLoop token password_tx rest st'
    | Except.ok false => (some LoopExit.broke, st')
    | Except.error e => (some (LoopExit.errored e), st')
  | LoopEvent.password pw w_pw w_nl :: rest, st =>
    let r := handle_password pw w_pw w_nl st.stdin
    let st' : LoopState := { st with stdin := r.2 }
    match r.1 with
    | Except.ok true => runLoop token password_tx rest st'
    | Except.ok false => (some LoopExit.broke, st')
    | Except.error e => (some (LoopExit.errored e), st')
  | LoopEvent.cancelled :: _, st => (some (LoopExit.errored PolkitError.Cancelled), st)

/-- The `should_continue` outcome a single ready arm produces,
independent of the threaded state. -/
def eventStep (token password_tx : Nat) : LoopEvent → Except PolkitError Bool
  | LoopEvent.helperLine l => (handle_helper_line l token password_tx).1
  | LoopEvent.password pw w_pw w_nl => (handle_password pw w_pw w_nl []).1
  | LoopEvent.cancelled => Except.error PolkitError.Cancelled

/-- The exit of the conversation loop as a function of the script alone:
skip arms that continue, stop at the first arm that breaks or errors. -/
def loopExit (token password_tx : Nat) : List LoopEvent → Option LoopExit
  | [] => none
  | ev :: rest =>
    match eventStep token password_tx ev with
    | Except.ok true => loopExit token password_tx rest
    | Except.ok false => some LoopExit.broke
    | Except.error e => some (LoopExit.errored e)

lemma handle_password_fst (pw : String) (w_pw w_nl : Bool) (stdin : List String) :
    (handle_password pw w_pw w_nl stdin).1 = (handle_password pw w_pw w_nl []).1 := by
  unfold handle_password
  by_cases h1 : w_pw <;> by_cases h2 : w_nl <;> simp [h1, h2]

lemma runLoop_fst (token password_tx : Nat) (script : List LoopEvent)
    (st : LoopState) :
    (runLoop token password_tx script st).1 = loopExit token password_tx script := by
  induction script generalizing st with
  | nil => rfl
  | cons ev rest ih =>
    cases ev with
    | helperLine l =>
      simp only [runLoop, loopExit, eventStep]
      cases (handle_helper_line l token password_tx).1 with
      | ok b => cases b <;> simp [ih]
      | error e => simp
    | password pw w_pw w_nl =>
      simp only [runLoop, loopExit, eventStep]
      rw [← handle_password_fst pw w_pw w_nl st.stdin]
      cases (handle_password pw w_pw w_nl st.stdin).1 with
      | ok b => cases b <;> simp [ih]
      | error e => simp
    | cancelled => rfl

lemma runLoop_stdin_extends (token password_tx : Nat) (script : List LoopEvent)
    (st : LoopState) :
    ∃ tail, (runLoop token password_tx script st).2.stdin = st.stdin ++ tail := by
  induction script generalizing st with
  | nil => exact ⟨[], by simp [runLoop]⟩
  | cons ev rest ih =>
    cases ev with
    | helperLine l =>
      simp only [runLoop]
      cases (handle_helper_line l token password_tx).1 with
      | ok b =>
        cases b
        · exact ⟨[], by simp⟩
        · exact ih _
      | error e => exact ⟨[], by simp⟩
    | password pw w_pw w_nl =>
      simp only [runLoop]
      have hp : ∃ mid, (handle_password pw w_pw w_nl st.stdin).2 = st.stdin ++ mid := by
        unfold handle_password
        by_cases h1 : w_pw <;> by_cases h2 : w_nl <;> simp [h1, h2]
      obtain ⟨mid, hmid⟩ := hp
      cases (handle_password pw w_pw w_nl st.stdin).1 with
      | ok b =>
        cases b
        · exact ⟨mid, by simp [hmid]⟩
        · obtain ⟨tail, htail⟩ := ih { st with stdin := (handle_password pw w_pw w_nl st.stdin).2 }
          rw [hmid] at htail
          refine ⟨mid ++ tail, ?_⟩
          rw [hmid]
          simp [htail, List.append_assoc]
      | error e => exact ⟨mid, by simp [hmid]⟩
    | cancelled => exact ⟨[], by simp [runLoop]⟩

/-- Environmental outcomes of the helper-process side effects during one
`authenticate` call: the two handshake writes of the cookie and the
newline (main.rs lines 179-187), whether the helper exits on its own
within the 1 second grace period after the loop (line 205), and whether
the forced `kill` succeeds (line 208). -/
structure HelperSys where
  write_cookie_ok : Bool
  write_newline_ok : Bool
  exits_within_grace : Bool
  kill_ok : Bool
deriving DecidableEq, Repr

/-- All helper-process side effects succeed. -/
def allOkSys : HelperSys :=
  { write_cookie_ok := true, write_newline_ok := true,
    exits_within_grace := true, kill_ok := true }

/-- Observable outcome of one `authenticate` call: the returned value,
the argument the helper was spawned with, the transcript of chunks
written to the helper's stdin, the events emitted on the channel,
whether the helper process was reaped (waited on, possibly after a
forced kill) before the call returned, and whether it was killed. -/
structure AuthResult where
  result : Except PolkitError Unit
  helper_arg : String
  stdin : List String
  events : List Event
  reaped : Bool
  killed : Bool
deriving DecidableEq, Repr

/-- `PolkitAgent::authenticate` (main.rs lines 162-212).  The spawn is
assumed to succeed (the code `unwrap`s it).  After a failed handshake
write the function returns `Failed` at once; otherwise the conversation
loop runs over the script; only the `break` exit reaches the
wait-with-grace / kill block, while error exits return directly.
`none` means the call has not returned (the loop is still waiting). -/
def authenticate (cookie username : String) (sys : HelperSys)
    (token password_tx : Nat) (script : List LoopEvent) : Option AuthResult :=
  if ¬ sys.write_cookie_ok then
    some { result := Except.error PolkitError.Failed, helper_arg := username,
           stdin := [], events := [], reaped := false, killed := false }
  else if ¬ sys.write_newline_ok then
    some { result := Except.error PolkitError.Failed, helper_arg := username,
           stdin := [cookie], events := [], reaped := false, killed := false }
  else
    let r := runLoop token password_tx script { stdin := [cookie, "\n"], events := [] }
    match r.1 with
    | none => none
    | some (LoopExit.errored e) =>
      some { result := Except.error e, helper_arg := username,
             stdin := r.2.stdin, events := r.2.events, reaped := false, killed := false }
    | some LoopExit.broke =>
      if sys.exits_within_grace then
        some { result := Except.ok (), helper_arg := username,
               stdin := r.2.stdin, events := r.2.events, reaped := true, killed := false }
      else if sys.kill_ok then
        some { result := Except.ok (), helper_arg := username,
               stdin := r.2.stdin, events := r.2.events, reaped := true, killed := true }
      else
        some { result := Except.error PolkitError.Failed, helper_arg := username,
               stdin := r.2.stdin, events := r.2.events, reaped := false, killed := false }

/-- `AuthenticationAttempt` (main.rs lines 86-89): the cookie and the
cancellation token, the latter reduced to its observable flag. -/
structure AuthenticationAttempt where
  cookie : String
  token_cancelled : Bool
deriving DecidableEq, Repr

/-- `PolkitAgent::cancel_authentication` (main.rs lines 142-158) as a
state transformer on the attempt slot.  No attempt or a cookie mismatch
leaves the slot untouched and still returns `Ok`; a matching cookie sets
the attempt's cancellation flag.  The function returns without any wait
on the helper: its only effect is the flag. -/
def cancel_authentication (attempt : Option AuthenticationAttempt) (cookie : String) :
    Except PolkitError Unit × Option AuthenticationAttempt :=
  match attempt with
  | none => (Except.ok (), none)
  | some a =>
    if a.cookie ≠ cookie then (Except.ok (), some a)
    else (Except.ok (), some { a with token_cancelled := true })

/-- Observable outcome of one `begin_authentication` call: the returned
value, the attempt slot after the call, the events emitted on the
channel, and whether the helper was reaped before the inner
`authenticate` returned. -/
structure BeginOutcome where
  result : Except PolkitError Unit
  attempt : Option AuthenticationAttempt
  events : List Event
  reaped : Bool
deriving DecidableEq, Repr

/-- `PolkitAgent::begin_authentication` (main.rs lines 98-140), run to
completion from a given slot state: reject when an attempt is active;
reject when no username can be selected; otherwise install the attempt,
run `authenticate`, emit `End`, clear the slot unconditionally and
return the driver's outcome.  `none` means the inner driver never
returned.  The `End` send is `expect`ed in the code and modelled as
infallible. -/
def begin_authentication (env : SysEnv) (attempt : Option AuthenticationAttempt)
    (cookie : String) (identities : List Identity) (sys : HelperSys)
    (token password_tx : Nat) (script : List LoopEvent) : Option BeginOutcome :=
  if attempt.isSome then
    some { result := Except.error PolkitError.Failed, attempt := attempt,
           events := [], reaped := false }
  else
    match select_username_from_identities env identities with
    | none =>
      some { result := Except.error PolkitError.Failed, attempt := attempt,
             events := [], reaped := false }
    | some username =>
      match authenticate cookie username sys token password_tx script with
      | none => none
      | some r =>
        some { result := r.result, attempt := none,
               events := r.events ++ [Event.End], reaped := r.reaped }

/-- Program counter of one in-flight `begin_authentication` call,
abstracted to its interactions with the shared attempt slot: the read
lock `is_some` check (main.rs line 109) and the later, separate write
lock install (lines 122-127).  Username selection is taken to succeed,
since it does not touch the slot. -/
inductive BeginPC where
  | atCheck
  | atInstall
  | running
  | rejected
deriving DecidableEq, Repr

/-- A configuration of two concurrently delivered `begin` calls, A with
cookie `ca` and B with cookie `cb`, sharing the attempt slot.  The slot
records the installed attempt's cookie. -/
structure TwoBeginConfig where
  pcA : BeginPC
  pcB : BeginPC
  slot : Option String
deriving DecidableEq, Repr

/-- One step of a single `begin` call against the shared slot: the check
reads the slot under the read lock and either rejects (`Failed`) or
proceeds; the install takes the write lock and stores the call's
attempt, overwriting whatever the slot held. -/
def stepThread (pc : BeginPC) (cookie : String) (slot : Option String) :
    BeginPC × Option String :=
  match pc with
  | BeginPC.atCheck =>
    if slot.isSome then (BeginPC.rejected, slot) else (BeginPC.atInstall, slot)
  | BeginPC.atInstall => (BeginPC.running, some cookie)
  | BeginPC.running => (BeginPC.running, slot)
  | BeginPC.rejected => (BeginPC.rejected, slot)

/-- Schedule one step of thread A (`who = false`) or B (`who = true`). -/
def stepConfig (ca cb : String) (c : TwoBeginConfig) (who : Bool) : TwoBeginConfig :=
  if who then
    let r := stepThread c.pcB cb c.slot
    { c with pcB := r.1, slot := r.2 }
  else
    let r := stepThread c.pcA ca c.slot
    { c with pcA := r.1, slot := r.2 }

/-- Run a whole interleaving of the two `begin` calls. -/
def runSched (ca cb : String) (c : TwoBeginConfig) : List Bool → TwoBeginConfig
  | [] => c
  | w :: rest => runSched ca cb (stepConfig ca cb c w) rest

/-- Invariant behind the mutual exclusion the code does provide: an
attempt is installed, call A is past the slot (running or rejected), and
call B has not yet passed its check.  Preserved by every step. -/
def beginInv (c : TwoBeginConfig) : Prop :=
  c.slot.isSome = true ∧
  (c.pcA = BeginPC.running ∨ c.pcA = BeginPC.rejected) ∧
  (c.pcB = BeginPC.atCheck ∨ c.pcB = BeginPC.rejected)

lemma beginInv_step (ca cb : String) (c : TwoBeginConfig) (who : Bool)
    (h : beginInv c) : beginInv (stepConfig ca cb c who) := by
  obtain ⟨hslot, hA, hB⟩ := h
  cases who with
  | false =>
    rcases hA with hA | hA <;>
      simp [stepConfig, stepThread, beginInv, hA, hslot, hB]
  | true =>
    rcases hB with hB | hB <;>
      simp [stepConfig, stepThread, beginInv, hB, hslot, hA]

/-- A unix-user identity carrying `uid` as a `U32` detail. -/
def identU (uid : Nat) : Identity :=
  { identity_kind := "unix-user", identity_details := [("uid", Value.U32 uid)] }

/-- A unix-user identity whose uid detail is a string, not a `U32`. -/
def identStr : Identity :=
  { identity_kind := "unix-user", identity_details := [("uid", Value.Str "1000")] }

/-- Concrete platform environment for the selection checks: real and
effective uid 1000, and an account directory knowing root, bob and
alice. -/
def envEx : SysEnv :=
  { current_uid := 1000, effective_uid := 1000,
    user_by_uid := fun uid =>
      if uid == 0 then some (some "root")
      else if uid == 500 then some (some "bob")
      else if uid == 1000 then some (some "alice")
      else none }

/-- Platform environment of a setuid-style process: real uid 1000,
effective uid 500. -/
def envRealEff : SysEnv :=
  { current_uid := 1000, effective_uid := 500,
    user_by_uid := fun uid =>
      if uid == 0 then some (some "root")
      else if uid == 500 then some (some "bob")
      else none }

/-- A helper that closes its stdout without any explicit final line. -/
def script_eof : List LoopEvent := [LoopEvent.helperLine (Except.ok none)]

/-- Whether a script contains a helper line whose token is SUCCESS. -/
def has_success_line (script : List LoopEvent) : Bool :=
  script.any (fun ev =>
    match ev with
    | LoopEvent.helperLine (Except.ok (some s)) =>
      (split_once_space (rust_trim s)).1 == "SUCCESS"
    | _ => false)

/-- C3 counterexample: with real uid 1000 and effective uid 500, on
identities carrying uids 500 and 0 the source selects root (the real
uid is absent and root is present) while the claim's effective-uid-first
rule selects bob.  The claim's rule does not describe the code, which
calls `uzers::get_current_uid` (`getuid`, the real uid). -/
theorem C3_counterexample :
    select_username_from_identities envRealEff [identU 500, identU 0] = some "root" ∧
    select_username_claimC3 envRealEff [identU 500, identU 0] = some "bob" ∧
    select_username_from_identities envRealEff [identU 500, identU 0] ≠
      select_username_claimC3 envRealEff [identU 500, identU 0] := by
  refine ⟨by rfl, by rfl, by decide⟩

/-- C3 (amended): `select_username_from_identities` filters to
"unix-user" identities carrying a `U32` uid detail, then prefers the
process's REAL uid (rather than the effective uid the claim names),
then root, then the first collected uid, and resolves the winner through
the account directory, where resolution failure or a non-UTF-8 name
yields no selection; the spec's concrete examples hold under this
rule. -/
theorem C3_selection_rule :
    (∀ (env : SysEnv) (ids : List Identity),
      select_username_from_identities env ids = select_username_rule env ids) ∧
    select_username_from_identities envEx [identU 1000, identU 0] = some "alice" ∧
    select_username_from_identities envEx [identU 0] = some "root" ∧
    select_username_from_identities envEx [identU 500] = some "bob" ∧
    select_username_from_identities envEx [] = none :=
  ⟨select_eq_rule, by rfl, by rfl, by rfl, by rfl⟩

lemma mem_collect_uids (ids : List Identity) (uid : Nat) :
    uid ∈ collect_uids ids ↔
      ∃ ident, ident ∈ ids ∧ ident.identity_kind = "unix-user" ∧
        lookupDetail ident.identity_details "uid" = some (Value.U32 uid) := by
  induction ids with
  | nil => simp [collect_uids]
  | cons hd tl ih =>
    have hsplit : (∃ ident, ident ∈ hd :: tl ∧ ident.identity_kind = "unix-user" ∧
        lookupDetail ident.identity_details "uid" = some (Value.U32 uid)) ↔
        ((hd.identity_kind = "unix-user" ∧
          lookupDetail hd.identity_details "uid" = some (Value.U32 uid)) ∨
         ∃ ident, ident ∈ tl ∧ ident.identity_kind = "unix-user" ∧
          lookupDetail ident.identity_details "uid" = some (Value.U32 uid)) := by
      constructor
      · rintro ⟨i, hi, h1, h2⟩
        rcases List.mem_cons.mp hi with rfl | hmem
        · exact Or.inl ⟨h1, h2⟩
        · exact Or.inr ⟨i, hmem, h1, h2⟩
      · rintro (⟨h1, h2⟩ | ⟨i, hmem, h1, h2⟩)
        · exact ⟨hd, List.mem_cons_self hd tl, h1, h2⟩
        · exact ⟨i, List.mem_cons_of_mem hd hmem, h1, h2⟩
    rw [hsplit, ← ih]
    by_cases hk : hd.identity_kind = "unix-user"
    · cases hl : lookupDetail hd.identity_details "uid" with
      | none => simp [collect_uids, hk, hl]
      | some v =>
        cases v with
        | U32 u => simp [collect_uids, hk, hl, List.mem_cons, eq_comm]
        | U64 u => simp [collect_uids, hk, hl]
        | I32 u => simp [collect_uids, hk, hl]
        | Str s => simp [collect_uids, hk, hl]
    · simp [collect_uids, hk]

lemma collect_uids_nil_of_no_u32 (ids : List Identity)
    (h : ∀ ident ∈ ids, ident.identity_kind = "unix-user" →
      ∀ uid, lookupDetail ident.identity_details "uid" ≠ some (Value.U32 uid)) :
    collect_uids ids = [] := by
  cases hc : collect_uids ids with
  | nil => rfl
  | cons u rest =>
    have hmem : u ∈ collect_uids ids := by
      rw [hc]
      exact List.mem_cons_self u rest
    rw [mem_collect_uids] at hmem
    obtain ⟨i, hi, h1, h2⟩ := hmem
    exact absurd h2 (h i hi h1 u)

lemma select_none_of_collect_nil (env : SysEnv) (ids : List Identity)
    (h : collect_uids ids = []) :
    select_username_from_identities env ids = none := by
  unfold select_username_from_identities
  simp [h, Option.orElse]

/-- C10: a uid is collected exactly from identities whose kind is
"unix-user" and whose "uid" detail is the `U32` variant (any other key
or variant encoding is ignored); consequently when every identity's uid
detail is missing or differently encoded, no uid is collected and the
selection is `none`. -/
theorem C10_uid_encoding (env : SysEnv) (ids : List Identity) :
    (∀ uid, uid ∈ collect_uids ids ↔
      ∃ ident, ident ∈ ids ∧ ident.identity_kind = "unix-user" ∧
        lookupDetail ident.identity_details "uid" = some (Value.U32 uid)) ∧
    ((∀ ident ∈ ids, ident.identity_kind = "unix-user" →
        ∀ uid, lookupDetail ident.identity_details "uid" ≠ some (Value.U32 uid)) →
      select_username_from_identities env ids = none) :=
  ⟨fun uid => mem_collect_uids ids uid,
   fun h => select_none_of_collect_nil env ids (collect_uids_nil_of_no_u32 ids h)⟩

/-- C10 witness: a single unix-user identity whose uid detail is the
string "1000" rather than a `U32` yields no selection. -/
theorem C10_witness :
    select_username_from_identities envEx [identStr] = none :=
  (C10_uid_encoding envEx [identStr]).2 (by
    intro ident hident hkind uid
    rcases List.mem_singleton.mp hident with rfl
    simp [identStr, lookupDetail])

/-- C5: `cancel_authentication` with no active attempt or a mismatched
cookie returns Ok and leaves the slot exactly as it was; with the
matching cookie it returns Ok and its only effect is setting the
attempt's cancellation flag - it does not wait on or touch the helper
process. -/
theorem C5_cancel_semantics (attempt : Option AuthenticationAttempt) (cookie : String) :
    (attempt = none → cancel_authentication attempt cookie = (Except.ok (), none)) ∧
    (∀ a, attempt = some a → a.cookie ≠ cookie →
      cancel_authentication attempt cookie = (Except.ok (), some a)) ∧
    (∀ a, attempt = some a → a.cookie = cookie →
      cancel_authentication attempt cookie =
        (Except.ok (), some { cookie := a.cookie, token_cancelled := true })) := by
  refine ⟨?_, ?_, ?_⟩
  · rintro rfl
    rfl
  · rintro a rfl hne
    simp [cancel_authentication, hne]
  · rintro a rfl heq
    simp [cancel_authentication, heq]

/-- C5 witness: cancelling the active attempt with its own cookie sets
the cancellation flag and returns Ok. -/
theorem C5_witness :
    cancel_authentication (some { cookie := "x", token_cancelled := false }) "x" =
      (Except.ok (), some { cookie := "x", token_cancelled := true }) :=
  (C5_cancel_semantics (some { cookie := "x", token_cancelled := false }) "x").2.2
    { cookie := "x", token_cancelled := false } rfl rfl

/-- C6: a begin arriving while an attempt is active returns Failed,
leaves the slot exactly as it was and emits no event; and when no
username can be selected, begin returns Failed with the slot still empty
and no event emitted. -/
theorem C6_begin_rejections (env : SysEnv) (attempt : Option AuthenticationAttempt)
    (cookie : String) (ids : List Identity) (sys : HelperSys)
    (token password_tx : Nat) (script : List LoopEvent) :
    (∀ a, attempt = some a →
      begin_authentication env attempt cookie ids sys token password_tx script =
        some { result := Except.error PolkitError.Failed, attempt := some a,
               events := [], reaped := false }) ∧
    (attempt = none → select_username_from_identities env ids = none →
      begin_authentication env attempt cookie ids sys token password_tx script =
        some { result := Except.error PolkitError.Failed, attempt := none,
               events := [], reaped := false }) := by
  constructor
  · rintro a rfl
    simp [begin_authentication]
  · rintro rfl hsel
    simp [begin_authentication, hsel]

/-- C6 witness: a second begin while the attempt with cookie "a" is
active is told Failed and the first attempt is untouched. -/
theorem C6_witness :
    begin_authentication envEx (some { cookie := "a", token_cancelled := false }) "b"
        [identU 1000] allOkSys 0 0 [] =
      some { result := Except.error PolkitError.Failed,
             attempt := some { cookie := "a", token_cancelled := false },
             events := [], reaped := false } :=
  (C6_begin_rejections envEx (some { cookie := "a", token_cancelled := false }) "b"
      [identU 1000] allOkSys 0 0 []).1
    { cookie := "a", token_cancelled := false } rfl

/-- C7: whenever begin installs an attempt (the slot was empty and a
username was selected) and the driver returns, begin emits the End event
after the driver's events, clears the attempt slot, and returns the
driver's outcome - the same cleanup on success, failure and
cancellation alike. -/
theorem C7_begin_cleanup (env : SysEnv) (cookie : String) (ids : List Identity)
    (sys : HelperSys) (token password_tx : Nat) (script : List LoopEvent)
    (username : String) (r : AuthResult)
    (hsel : select_username_from_identities env ids = some username)
    (hauth : authenticate cookie username sys token password_tx script = some r) :
    begin_authentication env none cookie ids sys token password_tx script =
      some { result := r.result, attempt := none,
             events := r.events ++ [Event.End], reaped := r.reaped } := by
  simp [begin_authentication, hsel, hauth]

/-- C7 witness: a run whose helper closes its stream ends with the slot
cleared and the End event emitted. -/
theorem C7_witness :
    begin_authentication envEx none "c" [identU 1000] allOkSys 0 0 script_eof =
      some { result := Except.ok (), attempt := none,
             events := [Event.End], reaped := true } :=
  C7_begin_cleanup envEx "c" [identU 1000] allOkSys 0 0 script_eof "alice"
    { result := Except.ok (), helper_arg := "alice", stdin := ["c", "\n"],
      events := [], reaped := true, killed := false } (by rfl) (by rfl)

/-- C9 counterexample: in the interleaving where both begin calls pass
their read-lock check before either takes the write lock, both calls
install and run - neither is told Failed - and the second install
overwrites the first attempt record: the check and the install do not
act atomically. -/
theorem C9_counterexample :
    runSched "a" "b"
        { pcA := BeginPC.atCheck, pcB := BeginPC.atCheck, slot := none }
        [false, true, false, true] =
      { pcA := BeginPC.running, pcB := BeginPC.running, slot := some "b" } := by
  rfl

/-- C9 (amended): the slot holds at most one attempt by construction,
and once an attempt is installed, a competing begin that has not yet
performed its check is, under every schedule, either still unchecked or
rejected with Failed - it never installs.  The check and the install
are, however, two separate critical sections (a read lock, then a later
write lock), not one atomic action, so two begins that both check before
either installs both proceed, the second overwriting the first. -/
theorem C9_mutual_exclusion (ca cb : String) (c : TwoBeginConfig)
    (sched : List Bool) (h : beginInv c) :
    beginInv (runSched ca cb c sched) ∧
      (runSched ca cb c sched).pcB ≠ BeginPC.running := by
  have hrun : beginInv (runSched ca cb c sched) := by
    induction sched generalizing c with
    | nil => exact h
    | cons w rest ih => exact ih (stepConfig ca cb c w) (beginInv_step ca cb c w h)
  refine ⟨hrun, ?_⟩
  rcases hrun.2.2 with hB | hB <;> simp [hB]

/-- C9 witness: from a configuration where A's attempt "a" is installed
and B has not yet checked, the schedule running B then A leaves B
rejected, never running. -/
theorem C9_witness :
    beginInv (runSched "a" "b"
        { pcA := BeginPC.running, pcB := BeginPC.atCheck, slot := some "a" }
        [true, false]) ∧
      (runSched "a" "b"
        { pcA := BeginPC.running, pcB := BeginPC.atCheck, slot := some "a" }
        [true, false]).pcB ≠ BeginPC.running :=
  C9_mutual_exclusion "a" "b"
    { pcA := BeginPC.running, pcB := BeginPC.atCheck, slot := some "a" }
    [true, false] ⟨rfl, Or.inl rfl, Or.inl rfl⟩

lemma handle_helper_line_fst_some (s : String) (token password_tx : Nat) :
    (handle_helper_line (Except.ok (some s)) token password_tx).1 = Except.ok false ↔
      (split_once_space (rust_trim s)).1 = "SUCCESS" := by
  simp only [handle_helper_line]
  split_ifs with h1 h2 h3 h4 h5 h6
  · simp [h1, show ("PAM_PROMPT_ECHO_OFF" : String) ≠ "SUCCESS" from by decide]
  · simp [h2, show ("PAM_PROMPT_ECHO_ON" : String) ≠ "SUCCESS" from by decide]
  · simp [h3, show ("PAM_ERROR_MSG" : String) ≠ "SUCCESS" from by decide]
  · simp [h4, show ("PAM_TEXT_INFO" : String) ≠ "SUCCESS" from by decide]
  · simp [h5]
  · simp [h6, show ("FAILURE" : String) ≠ "SUCCESS" from by decide]
  · simp [h5]

lemma eventStep_break_iff (token password_tx : Nat) (ev : LoopEvent) :
    eventStep token password_tx ev = Except.ok false ↔
      (ev = LoopEvent.helperLine (Except.ok none) ∨
       ∃ s, ev = LoopEvent.helperLine (Except.ok (some s)) ∧
         (split_once_space (rust_trim s)).1 = "SUCCESS") := by
  cases ev with
  | helperLine l =>
    cases l with
    | error e => simp [eventStep, handle_helper_line]
    | ok o =>
      cases o with
      | none => simp [eventStep, handle_helper_line]
      | some s =>
        rw [show eventStep token password_tx (LoopEvent.helperLine (Except.ok (some s))) =
          (handle_helper_line (Except.ok (some s)) token password_tx).1 from rfl]
        rw [handle_helper_line_fst_some]
        simp
  | password pw w1 w2 =>
    simp only [eventStep, handle_password]
    by_cases hw1 : w1 <;> by_cases hw2 : w2 <;> simp [hw1, hw2]
  | cancelled => simp [eventStep]

lemma authenticate_result_eq (cookie username : String) (sys : HelperSys)
    (token password_tx : Nat) (script : List LoopEvent) (r : AuthResult)
    (h1 : sys.write_cookie_ok = true) (h2 : sys.write_newline_ok = true)
    (hr : authenticate cookie username sys token password_tx script = some r) :
    r.result =
      (match loopExit token password_tx script with
       | some (LoopExit.errored e) => Except.error e
       | _ =>
         if sys.exits_within_grace = true ∨ sys.kill_ok = true then Except.ok ()
         else Except.error PolkitError.Failed) := by
  unfold authenticate at hr
  simp only [h1, h2, eq_self_iff_true, not_true, if_false] at hr
  rw [runLoop_fst] at hr
  cases hL : loopExit token password_tx script with
  | none =>
    rw [hL] at hr
    simp at hr
  | some ex =>
    rw [hL] at hr
    cases ex with
    | errored e =>
      simp only [Option.some.injEq] at hr
      subst hr
      simp [hL]
    | broke =>
      cases hg : sys.exits_within_grace with
      | true =>
        simp only [hg, eq_self_iff_true, if_true, Option.some.injEq] at hr
        subst hr
        simp [hL, hg]
      | false =>
        cases hk : sys.kill_ok with
        | true =>
          simp [hg, hk] at hr
          subst hr
          simp [hL, hg, hk]
        | false =>
          simp [hg, hk] at hr
          subst hr
          simp [hL, hg, hk]

lemma authenticate_reaped_eq (cookie username : String) (sys : HelperSys)
    (token password_tx : Nat) (script : List LoopEvent) (r : AuthResult)
    (hr : authenticate cookie username sys token password_tx script = some r) :
    r.reaped = (sys.write_cookie_ok && sys.write_newline_ok &&
      (match loopExit token password_tx script with
       | some LoopExit.broke => sys.exits_within_grace || sys.kill_ok
       | _ => false)) := by
  unfold authenticate at hr
  cases h1 : sys.write_cookie_ok with
  | false =>
    simp [h1] at hr
    subst hr
    simp [h1]
  | true =>
    cases h2 : sys.write_newline_ok with
    | false =>
      simp [h1, h2] at hr
      subst hr
      simp [h1, h2]
    | true =>
      simp only [h1, h2, eq_self_iff_true, not_true, if_false] at hr
      rw [runLoop_fst] at hr
      cases hL : loopExit token password_tx script with
      | none =>
        rw [hL] at hr
        simp at hr
      | some ex =>
        rw [hL] at hr
        cases ex with
        | errored e =>
          simp only [Option.some.injEq] at hr
          subst hr
          simp [hL, h1, h2]
        | broke =>
          cases hg : sys.exits_within_grace with
          | true =>
            simp only [hg, eq_self_iff_true, if_true, Option.some.injEq] at hr
            subst hr
            simp [hL, h1, h2, hg]
          | false =>
            cases hk : sys.kill_ok with
            | true =>
              simp [hg, hk] at hr
              subst hr
              simp [hL, h1, h2, hg, hk]
            | false =>
              simp [hg, hk] at hr
              subst hr
              simp [hL, h1, h2, hg, hk]

/-- C1 counterexample: on a FAILURE line the conversation loop exits by
an error return (`?`) that never reaches the wait-and-kill block: the
call returns with the spawned helper neither waited on nor killed
(`reaped = false`), so the helper is not reaped before the call returns
on this path. -/
theorem C1_counterexample :
    authenticate "cookie" "user" allOkSys 0 0
        [LoopEvent.helperLine (Except.ok (some "FAILURE"))] =
      some { result := Except.error PolkitError.Failed, helper_arg := "user",
             stdin := ["cookie", "\n"], events := [], reaped := false,
             killed := false } := by
  rfl

/-- C1 (amended): the helper is reaped before `authenticate` returns
exactly on the paths where the handshake writes succeeded, the
conversation loop ended by break (a SUCCESS line or end of stream), and
the helper then exited within the 1 second grace period or was
successfully killed.  On helper failure, echo-on rejection, I/O failure
and cancellation paths the call returns without waiting on or killing
the helper. -/
theorem C1_reap_characterization (cookie username : String) (sys : HelperSys)
    (token password_tx : Nat) (script : List LoopEvent) (r : AuthResult)
    (hr : authenticate cookie username sys token password_tx script = some r) :
    r.reaped = true ↔
      (sys.write_cookie_ok = true ∧ sys.write_newline_ok = true ∧
       loopExit token password_tx script = some LoopExit.broke ∧
       (sys.exits_within_grace = true ∨ sys.kill_ok = true)) := by
  rw [authenticate_reaped_eq cookie username sys token password_tx script r hr]
  cases hL : loopExit token password_tx script with
  | none => simp [hL]
  | some ex =>
    cases ex with
    | errored e => simp [hL]
    | broke => simp [hL, Bool.and_eq_true, Bool.or_eq_true, and_assoc]

/-- C1 witness: when the helper closes its stream and exits within the
grace period, the call returns with the helper reaped. -/
theorem C1_witness :
    (({ result := Except.ok (), helper_arg := "u", stdin := ["c", "\n"],
        events := [], reaped := true, killed := false } : AuthResult).reaped = true ↔
      (allOkSys.write_cookie_ok = true ∧ allOkSys.write_newline_ok = true ∧
       loopExit 0 0 script_eof = some LoopExit.broke ∧
       (allOkSys.exits_within_grace = true ∨ allOkSys.kill_ok = true))) :=
  C1_reap_characterization "c" "u" allOkSys 0 0 script_eof _ (by rfl)

/-- C2 counterexample: a helper that closes its stream without ever
sending a SUCCESS line still makes `authenticate` return Ok: end of
stream ends the loop on the success path, so Ok is not returned only
when a SUCCESS line was received. -/
theorem C2_counterexample :
    (authenticate "c" "u" allOkSys 0 0 script_eof).map AuthResult.result =
      some (Except.ok ()) ∧
    has_success_line script_eof = false :=
  ⟨by rfl, by rfl⟩

/-- C2 (amended): with the handshake writes succeeding, `authenticate`
returns Ok exactly when the loop ended by break - and a ready line
breaks the loop exactly when it is end of stream or carries the SUCCESS
token - and the helper then exited within the grace period or was
successfully killed; it returns Cancelled exactly when the cancellation
arm ended the loop; and it returns Failed exactly on a FAILURE line,
an echo-on prompt, an I/O failure reading or writing, or a failed
forced kill after a break. -/
theorem C2_result_characterization (cookie username : String) (sys : HelperSys)
    (token password_tx : Nat) (script : List LoopEvent) (r : AuthResult)
    (h1 : sys.write_cookie_ok = true) (h2 : sys.write_newline_ok = true)
    (hr : authenticate cookie username sys token password_tx script = some r) :
    (r.result = Except.ok () ↔
      (loopExit token password_tx script = some LoopExit.broke ∧
       (sys.exits_within_grace = true ∨ sys.kill_ok = true))) ∧
    (r.result = Except.error PolkitError.Cancelled ↔
      loopExit token password_tx script = some (LoopExit.errored PolkitError.Cancelled)) ∧
    (r.result = Except.error PolkitError.Failed ↔
      (loopExit token password_tx script = some (LoopExit.errored PolkitError.Failed) ∨
       (loopExit token password_tx script = some LoopExit.broke ∧
        sys.exits_within_grace = false ∧ sys.kill_ok = false))) ∧
    (∀ ev, eventStep token password_tx ev = Except.ok false ↔
      (ev = LoopEvent.helperLine (Except.ok none) ∨
       ∃ s, ev = LoopEvent.helperLine (Except.ok (some s)) ∧
         (split_once_space (rust_trim s)).1 = "SUCCESS")) := by
  rw [authenticate_result_eq cookie username sys token password_tx script r h1 h2 hr]
  refine ⟨?_, ?_, ?_, fun ev => eventStep_break_iff token password_tx ev⟩
  all_goals
    cases hL : loopExit token password_tx script with
    | none =>
      rw [show authenticate cookie username sys token password_tx script = none by
        unfold authenticate
        simp only [h1, h2, eq_self_iff_true, not_true, if_false]
        rw [runLoop_fst, hL]] at hr
      cases hr
    | some ex =>
      cases ex with
      | broke =>
        cases hg : sys.exits_within_grace <;> cases hk : sys.kill_ok <;>
          simp [hL, hg, hk]
      | errored e =>
        cases e <;> simp [hL]

/-- C2 witness: an end-of-stream conversation with all side effects
succeeding returns Ok, matching the break-and-reap condition. -/
theorem C2_witness :
    (({ result := Except.ok (), helper_arg := "u", stdin := ["c", "\n"],
        events := [], reaped := true, killed := false } : AuthResult).result =
        Except.ok () ↔
      (loopExit 0 0 script_eof = some LoopExit.broke ∧
       (allOkSys.exits_within_grace = true ∨ allOkSys.kill_ok = true))) :=
  (C2_result_characterization "c" "u" allOkSys 0 0 script_eof _ rfl rfl (by rfl)).1

/-- C4 counterexample: on the line " SUCCESS" (one leading space) the
code trims the line first and ends the loop, while the claim's literal
rule - split the line at the first space and dispatch on the token -
yields the empty token, an unrecognized word that is tolerated and
continues the loop: the two disagree on this line. -/
theorem C4_counterexample :
    handle_helper_line (Except.ok (some " SUCCESS")) 0 0 = (Except.ok false, []) ∧
    handle_helper_line_claim (Except.ok (some " SUCCESS")) 0 0 = (Except.ok true, []) ∧
    handle_helper_line (Except.ok (some " SUCCESS")) 0 0 ≠
      handle_helper_line_claim (Except.ok (some " SUCCESS")) 0 0 :=
  ⟨by rfl, by rfl, by decide⟩

/-- C4 (amended): `handle_helper_line` first trims surrounding
whitespace and then behaves exactly as the claim's table says on the
trimmed line: it splits at the first space and dispatches on the token -
an echo-off prompt emits a PromptPassword event carrying the reply
channel and cancellation handle and continues the loop; echo-on fails
with Failed; error and info messages continue; SUCCESS ends the loop;
FAILURE fails with Failed; an unrecognized token is tolerated and the
loop continues; end of stream ends the loop. -/
theorem C4_line_dispatch (line : Except Unit (Option String)) (token password_tx : Nat) :
    handle_helper_line line token password_tx =
      handle_helper_line_claim (trim_line line) token password_tx ∧
    handle_helper_line (Except.ok (some "PAM_PROMPT_ECHO_OFF Password:")) token password_tx =
      (Except.ok true, [Event.ReadPassword password_tx token]) ∧
    handle_helper_line (Except.ok (some "PAM_PROMPT_ECHO_ON visible:")) token password_tx =
      (Except.error PolkitError.Failed, []) ∧
    handle_helper_line (Except.ok (some "PAM_ERROR_MSG oops")) token password_tx =
      (Except.ok true, []) ∧
    handle_helper_line (Except.ok (some "PAM_TEXT_INFO hello")) token password_tx =
      (Except.ok true, []) ∧
    handle_helper_line (Except.ok (some "SUCCESS")) token password_tx =
      (Except.ok false, []) ∧
    handle_helper_line (Except.ok (some "FAILURE")) token password_tx =
      (Except.error PolkitError.Failed, []) ∧
    handle_helper_line (Except.ok (some "SOMETHING else")) token password_tx =
      (Except.ok true, []) ∧
    handle_helper_line (Except.ok none) token password_tx = (Except.ok false, []) := by
  refine ⟨?_, by rfl, by rfl, by rfl, by rfl, by rfl, by rfl, by rfl, by rfl⟩
  cases line with
  | error e => rfl
  | ok o =>
    cases o with
    | none => rfl
    | some s => rfl

/-- Helper transcript of the canonical successful conversation: an
echo-off password prompt, the reply "secret" with both stdin writes
succeeding, then SUCCESS. -/
def script_success : List LoopEvent :=
  [LoopEvent.helperLine (Except.ok (some "PAM_PROMPT_ECHO_OFF Password:")),
   LoopEvent.password "secret" true true,
   LoopEvent.helperLine (Except.ok (some "SUCCESS"))]

lemma authenticate_stdin (cookie username : String) (sys : HelperSys)
    (token password_tx : Nat) (script : List LoopEvent) (r : AuthResult)
    (h1 : sys.write_cookie_ok = true) (h2 : sys.write_newline_ok = true)
    (hr : authenticate cookie username sys token password_tx script = some r) :
    ∃ tail, r.stdin = [cookie, "\n"] ++ tail := by
  obtain ⟨tail, htail⟩ := runLoop_stdin_extends token password_tx script
    { stdin := [cookie, "\n"], events := [] }
  unfold authenticate at hr
  simp only [h1, h2, eq_self_iff_true, not_true, if_false] at hr
  cases hL : (runLoop token password_tx script { stdin := [cookie, "\n"], events := [] }).1 with
  | none =>
    rw [hL] at hr
    simp at hr
  | some ex =>
    rw [hL] at hr
    cases ex with
    | errored e =>
      simp only [Option.some.injEq] at hr
      subst hr
      exact ⟨tail, htail⟩
    | broke =>
      cases hg : sys.exits_within_grace with
      | true =>
        simp [hg] at hr
        subst hr
        exact ⟨tail, htail⟩
      | false =>
        cases hk : sys.kill_ok with
        | true =>
          simp [hg, hk] at hr
          subst hr
          exact ⟨tail, htail⟩
        | false =>
          simp [hg, hk] at hr
          subst hr
          exact ⟨tail, htail⟩

/-- C8: whenever the handshake writes succeed and the call returns, the
first two chunks written to the helper's stdin are the cookie and a
newline, written before anything else; and the canonical conversation -
an echo-off prompt, the reply "secret", then SUCCESS - returns Ok with
the stdin transcript cookie, newline, "secret", newline in that order,
the password following the prompt event. -/
theorem C8_handshake_and_success :
    (∀ (cookie username : String) (sys : HelperSys) (token password_tx : Nat)
        (script : List LoopEvent) (r : AuthResult),
      sys.write_cookie_ok = true → sys.write_newline_ok = true →
      authenticate cookie username sys token password_tx script = some r →
      r.stdin.take 2 = [cookie, "\n"]) ∧
    authenticate "cookie123" "alice" allOkSys 5 6 script_success =
      some { result := Except.ok (), helper_arg := "alice",
             stdin := ["cookie123", "\n", "secret", "\n"],
             events := [Event.ReadPassword 6 5], reaped := true,
             killed := false } := by
  constructor
  · intro cookie username sys token password_tx script r h1 h2 hr
    obtain ⟨tail, htail⟩ :=
      authenticate_stdin cookie username sys token password_tx script r h1 h2 hr
    rw [htail]
    rfl
  · rfl

/-- C8 witness: the handshake prefix on the canonical successful run. -/
theorem C8_witness :
    ({ result := Except.ok (), helper_arg := "alice",
       stdin := ["cookie123", "\n", "secret", "\n"],
       events := [Event.ReadPassword 6 5], reaped := true,
       killed := false } : AuthResult).stdin.take 2 = ["cookie123", "\n"] :=
  C8_handshake_and_success.1 "cookie123" "alice" allOkSys 5 6 script_success _
    rfl rfl (by rfl)

end PkAgent
